import Mathlib

/-!
Verification development for the Pitié-Salpêtrière synthetic-data generation
engine.  The Python sources under `src/python/data_generation/` are shallowly
embedded below: floats become rationals, Python `int()` becomes truncation
toward zero, `datetime` dates become day indices counted from 2020-01-01,
and every `np.random.*` draw is an explicit value taken from an ambient
stream of rationals supplied as an argument.
-/

namespace PitieSalpetriere

/-! ## Numeric preliminaries -/

/-- Python `int()` applied to a float: truncation toward zero. -/
def pyInt (q : ℚ) : ℤ := if 0 ≤ q then ⌊q⌋ else ⌈q⌉

/-- Round-half-to-even to the nearest integer, the rounding mode of Python
`round` (IEEE floats round ties to even). -/
def roundHE (q : ℚ) : ℤ :=
  let f := ⌊q⌋
  let r := q - (f : ℚ)
  if r < 1/2 then f
  else if 1/2 < r then f + 1
  else if 2 ∣ f then f else f + 1

/-- Python `round(q, k)`: round to `k` decimal places, ties to even. -/
def pyRound (k : ℕ) (q : ℚ) : ℚ := (roundHE (q * (10 : ℚ) ^ k) : ℚ) / (10 : ℚ) ^ k

/-- A numpy draw `np.random.normal(mu, sigma)` realised from a raw
standard-normal variate `z` supplied by the stream. -/
def normalV (mu sigma z : ℚ) : ℚ := mu + sigma * z

/-- A numpy draw `np.random.uniform(a, b)` realised from a raw uniform
variate `u` in `[0, 1]` supplied by the stream. -/
def uniformV (a b u : ℚ) : ℚ := a + (b - a) * u

/-- Raw variate streams: one rational per draw. -/
abbrev Draws := ℕ → ℚ

theorem pyInt_eq_floor (q : ℚ) (h : 0 ≤ q) : pyInt q = ⌊q⌋ := by
  simp [pyInt, h]

theorem pyInt_nonneg (q : ℚ) (h : 0 ≤ q) : 0 ≤ pyInt q := by
  rw [pyInt_eq_floor q h]
  exact Int.floor_nonneg.mpr h

theorem pyInt_le (q : ℚ) (h : 0 ≤ q) : (pyInt q : ℚ) ≤ q := by
  rw [pyInt_eq_floor q h]
  exact Int.floor_le q

theorem roundHE_ge_floor (q : ℚ) : ⌊q⌋ ≤ roundHE q := by
  unfold roundHE
  dsimp only
  split
  · exact le_refl _
  · split
    · omega
    · split
      · exact le_refl _
      · omega

theorem roundHE_le_of_le (q : ℚ) (b : ℤ) (h : q ≤ (b : ℚ)) : roundHE q ≤ b := by
  have hfb : ⌊q⌋ ≤ b := by
    have := Int.floor_le_floor (α := ℚ) h
    simpa using this
  rcases lt_or_eq_of_le hfb with hlt | heq
  · unfold roundHE
    dsimp only
    split
    · omega
    · split
      · omega
      · split
        · omega
        · omega
  · have hr : q - (⌊q⌋ : ℚ) ≤ 0 := by
      rw [heq]
      linarith
    unfold roundHE
    dsimp only
    have : q - (⌊q⌋ : ℚ) < 1/2 := by linarith
    simp only [this, if_true]
    omega

theorem roundHE_ge_of_ge (q : ℚ) (a : ℤ) (h : (a : ℚ) ≤ q) : a ≤ roundHE q := by
  have := roundHE_ge_floor q
  have : a ≤ ⌊q⌋ := Int.le_floor.mpr h
  omega

/-- Rounding to `k` decimals keeps a value inside an interval whose bounds
are themselves `k`-decimal grid points. -/
theorem pyRound_mem_Icc (k : ℕ) (q lo hi : ℚ) (a b : ℤ)
    (hlo : lo = (a : ℚ) / (10 : ℚ) ^ k) (hhi : hi = (b : ℚ) / (10 : ℚ) ^ k)
    (h1 : lo ≤ q) (h2 : q ≤ hi) :
    lo ≤ pyRound k q ∧ pyRound k q ≤ hi := by
  have hpow : (0 : ℚ) < (10 : ℚ) ^ k := by positivity
  have ha : (a : ℚ) ≤ q * (10 : ℚ) ^ k := by
    have := mul_le_mul_of_nonneg_right h1 (le_of_lt hpow)
    rw [hlo] at this
    calc (a : ℚ) = (a : ℚ) / (10 : ℚ) ^ k * (10 : ℚ) ^ k := by
          field_simp
      _ ≤ q * (10 : ℚ) ^ k := this
  have hb : q * (10 : ℚ) ^ k ≤ (b : ℚ) := by
    have := mul_le_mul_of_nonneg_right h2 (le_of_lt hpow)
    rw [hhi] at this
    calc q * (10 : ℚ) ^ k ≤ (b : ℚ) / (10 : ℚ) ^ k * (10 : ℚ) ^ k := this
      _ = (b : ℚ) := by field_simp
  have hra : a ≤ roundHE (q * (10 : ℚ) ^ k) := roundHE_ge_of_ge _ a ha
  have hrb : roundHE (q * (10 : ℚ) ^ k) ≤ b := roundHE_le_of_le _ b hb
  constructor
  · rw [hlo, pyRound]
    gcongr
  · rw [hhi, pyRound]
    gcongr

/-! ## Calendar

Python `datetime.date` is embedded as a day index: day `0` is 2020-01-01.
`daysFromCivilNat` is the standard civil-calendar conversion (Gregorian),
counting days on an absolute scale on which 2020-01-01 is day 737730. -/

/-- Absolute day number of the civil date `(y, m, d)`; 2020-01-01 maps
to 737730 (that is, `719468 + 18262`). -/
def daysFromCivilNat (y m d : ℕ) : ℕ :=
  let y' := if m ≤ 2 then y - 1 else y
  let era := y' / 400
  let yoe := y' % 400
  let mp := if 2 < m then m - 3 else m + 9
  let doy := (153 * mp + 2) / 5 + (d - 1)
  let doe := yoe * 365 + yoe / 4 - yoe / 100 + doy
  era * 146097 + doe

/-- Day index (days since 2020-01-01) of a civil date in 2020 or later. -/
def natDate (y m d : ℕ) : ℕ := daysFromCivilNat y m d - 737730

/-- Day index as an integer; meaningful for dates before 2020 as well. -/
def mkDateZ (y m d : ℕ) : ℤ := (daysFromCivilNat y m d : ℤ) - 737730

/-- Civil `(year, month, day-of-month)` of a day index (standard inverse
civil-calendar algorithm). -/
def civilOfDay (n : ℕ) : ℕ × ℕ × ℕ :=
  let z := n + 737730
  let era := z / 146097
  let doe := z % 146097
  let yoe := (doe - doe / 1460 + doe / 36524 - doe / 146096) / 365
  let y0 := yoe + era * 400
  let doy := doe - (365 * yoe + yoe / 4 - yoe / 100)
  let mp := (5 * doy + 2) / 153
  let dd := doy - (153 * mp + 2) / 5 + 1
  let mm := if mp < 10 then mp + 3 else mp - 9
  (if mm ≤ 2 then y0 + 1 else y0, mm, dd)

/-- `date.year` of a day index. -/
def yearOf (n : ℕ) : ℕ := (civilOfDay n).1

/-- `date.month` of a day index. -/
def monthOf (n : ℕ) : ℕ := (civilOfDay n).2.1

/-- Python `date.weekday()`: Monday = 0.  2020-01-01 was a Wednesday. -/
def weekdayOf (n : ℕ) : ℕ := (n + 2) % 7

/-! ### ISO week number

`datetime.date.isocalendar()[1]` is embedded by the standard ISO 8601
week-number algorithm: `w0 = ⌊(ordinal − isoWeekday + 10) / 7⌋`; if `w0 < 1`
the date belongs to the last week of the previous ISO year, if `w0` exceeds
the number of weeks of the current ISO year it is week 1 of the next one. -/

/-- ISO weekday, Monday = 1 .. Sunday = 7. -/
def isoWeekdayOf (n : ℕ) : ℤ := (weekdayOf n : ℤ) + 1

/-- Ordinal of the day within its civil year (Jan 1 = 1), as an integer. -/
def ordinalInYear (n : ℕ) : ℤ := (n : ℤ) - mkDateZ (yearOf n) 1 1 + 1

/-- Weekday offset of Dec 31 of year `y` used by the ISO 53-week rule. -/
def isoP (y : ℕ) : ℕ := (y + y / 4 - y / 100 + y / 400) % 7

/-- Number of ISO weeks in ISO year `y`: 53 when the year starts on a
Thursday or is a leap year starting on a Wednesday, else 52. -/
def isoWeeksInYear (y : ℕ) : ℤ := if isoP y = 4 ∨ isoP (y - 1) = 3 then 53 else 52

/-- ISO week number of a day index, embedding `date.isocalendar()[1]`. -/
def isoWeek (n : ℕ) : ℤ :=
  let w0 := (ordinalInYear n - isoWeekdayOf n + 10).fdiv 7
  if w0 < 1 then isoWeeksInYear (yearOf n - 1)
  else if isoWeeksInYear (yearOf n) < w0 then 1
  else w0

theorem isoWeeksInYear_ge (y : ℕ) : 52 ≤ isoWeeksInYear y := by
  unfold isoWeeksInYear
  split <;> omega

theorem isoWeeksInYear_le (y : ℕ) : isoWeeksInYear y ≤ 53 := by
  unfold isoWeeksInYear
  split <;> omega

theorem isoWeek_ge_one (n : ℕ) : 1 ≤ isoWeek n := by
  unfold isoWeek
  dsimp only
  split
  · have := isoWeeksInYear_ge (yearOf n - 1)
    omega
  · split
    · omega
    · omega

theorem isoWeek_le (n : ℕ) : isoWeek n ≤ 53 := by
  unfold isoWeek
  dsimp only
  split
  · exact isoWeeksInYear_le _
  · split
    · omega
    · have := isoWeeksInYear_le (yearOf n)
      omega

/-! ## Embedding of `generate_dataset.py`

Coefficient tables, the exceptional-event calendar and the daily admission
count.  The module seeds numpy with 42 at import time; draws are modelled as
explicit stream values. -/

/-- Hospital services of `generate_dataset.py` (keys of `SERVICES`). -/
inductive Service where
  | urgences | cardiologie | neurologie | maladiesInfectieuses | pediatrie | reanimation
deriving DecidableEq, Repr

/-- `MONTHLY_COEFFICIENTS` (DREES Paris): month → multiplier. -/
def MONTHLY_COEFFICIENTS : ℕ → ℚ
  | 1 => 1.0186
  | 2 => 1.0250
  | 3 => 1.0027
  | 4 => 0.9346
  | 5 => 0.9640
  | 6 => 1.0421
  | 7 => 0.9658
  | 8 => 0.8694
  | 9 => 1.0345
  | 10 => 1.0707
  | 11 => 1.0386
  | 12 => 1.0380
  | _ => 1

/-- `WEEKDAY_COEFFICIENTS` (DREES): weekday (Monday = 0) → multiplier. -/
def WEEKDAY_COEFFICIENTS : ℕ → ℚ
  | 0 => 1.0934
  | 1 => 1.0013
  | 2 => 0.9946
  | 3 => 1.0040
  | 4 => 1.0182
  | 5 => 0.9694
  | 6 => 0.9194
  | _ => 1

/-- `GRIPPE_WEEKLY_COEFFICIENTS` (Réseau Sentinelles): epidemiological week
(1–52) → raw weekly flu-activity coefficient. -/
def GRIPPE_WEEKLY_COEFFICIENTS : List (ℤ × ℚ) :=
  [(1, 2.178), (2, 2.123), (3, 2.482), (4, 3.103), (5, 3.594), (6, 3.682),
   (7, 3.173), (8, 2.514), (9, 1.890), (10, 1.549), (11, 1.325), (12, 1.170),
   (13, 1.017), (14, 0.828), (15, 0.545), (16, 0.389), (17, 0.272), (18, 0.188),
   (19, 0.161), (20, 0.142), (21, 0.122), (22, 0.122), (23, 0.136), (24, 0.126),
   (25, 0.126), (26, 0.114), (27, 0.111), (28, 0.097), (29, 0.094), (30, 0.083),
   (31, 0.105), (32, 0.079), (33, 0.088), (34, 0.106), (35, 0.110), (36, 0.134),
   (37, 0.215), (38, 0.324), (39, 0.405), (40, 0.427), (41, 0.450), (42, 0.460),
   (43, 0.446), (44, 0.440), (45, 0.522), (46, 0.623), (47, 1.031), (48, 1.640),
   (49, 2.371), (50, 2.831), (51, 3.056), (52, 2.383)]

/-- `get_seasonal_factor`: monthly multiplier of the date. -/
def get_seasonal_factor (n : ℕ) : ℚ := MONTHLY_COEFFICIENTS (monthOf n)

/-- `get_weekly_factor`: weekday multiplier of the date. -/
def get_weekly_factor (n : ℕ) : ℚ := WEEKDAY_COEFFICIENTS (weekdayOf n)

/-- The raw Sentinelles weekly coefficient used by `get_grippe_factor`:
ISO week capped at 52, absent key defaulting to 1.0. -/
def rawGrippeCoeff (n : ℕ) : ℚ :=
  ((GRIPPE_WEEKLY_COEFFICIENTS.lookup (min (isoWeek n) 52)).getD 1)

/-- `get_grippe_factor`: tempered flu impact factor. -/
def get_grippe_factor (n : ℕ) : ℚ :=
  let week_num := min (isoWeek n) 52
  let base_coeff := (GRIPPE_WEEKLY_COEFFICIENTS.lookup week_num).getD 1
  if 1 < base_coeff then 1 + (base_coeff - 1) * 0.06
  else 1 - (1 - base_coeff) * 0.03

/-- Categories of exceptional events in `get_exceptional_events`. -/
inductive EventType where
  | epidemie | canicule | accident_massif | greve
deriving DecidableEq, Repr

/-- An exceptional event: inclusive day-index range, category, magnitude
multiplier and affected services. -/
structure Event where
  startD : ℕ
  endD : ℕ
  typ : EventType
  factor : ℚ
  affected : List Service
deriving Repr

/-- `get_exceptional_events()`: the 2024–2025 event calendar, in list order. -/
def exceptional_events : List Event :=
  [⟨natDate 2024 1 22, natDate 2024 2 11, .epidemie, 1.42,
    [.urgences, .maladiesInfectieuses, .pediatrie, .reanimation]⟩,
   ⟨natDate 2024 3 10, natDate 2024 3 20, .epidemie, 1.18,
    [.urgences, .pediatrie, .maladiesInfectieuses]⟩,
   ⟨natDate 2024 7 18, natDate 2024 7 25, .canicule, 1.28,
    [.urgences, .cardiologie, .neurologie]⟩,
   ⟨natDate 2024 10 28, natDate 2024 11 17, .epidemie, 1.32,
    [.urgences, .pediatrie]⟩,
   ⟨natDate 2024 12 16, natDate 2025 1 12, .epidemie, 1.55,
    [.urgences, .maladiesInfectieuses, .pediatrie, .reanimation]⟩,
   ⟨natDate 2025 2 8, natDate 2025 2 18, .epidemie, 1.22,
    [.urgences, .pediatrie, .maladiesInfectieuses]⟩,
   ⟨natDate 2025 3 15, natDate 2025 3 15, .accident_massif, 1.85,
    [.urgences, .reanimation]⟩,
   ⟨natDate 2025 4 22, natDate 2025 4 24, .greve, 0.72,
    [.urgences, .cardiologie, .neurologie, .maladiesInfectieuses, .pediatrie, .reanimation]⟩,
   ⟨natDate 2025 8 2, natDate 2025 8 14, .canicule, 1.35,
    [.urgences, .cardiologie, .neurologie, .reanimation]⟩,
   ⟨natDate 2025 11 10, natDate 2025 11 30, .epidemie, 1.38,
    [.urgences, .maladiesInfectieuses, .pediatrie]⟩,
   ⟨natDate 2025 12 15, natDate 2025 12 31, .epidemie, 1.48,
    [.urgences, .maladiesInfectieuses, .pediatrie, .reanimation]⟩]

/-- `is_in_event`: the first event of the calendar whose inclusive date
range contains the day, if any. -/
def is_in_event (n : ℕ) (events : List Event) : Option Event :=
  events.find? (fun e => e.startD ≤ n && n ≤ e.endD)

/-- The `expected` value computed inside `generate_daily_admissions`:
base 334 admissions/day times DREES and Sentinelles factors, with an
epidemic-category event replacing the background flu factor. -/
def gdaExpected (n : ℕ) : ℚ :=
  let seasonal := get_seasonal_factor n
  let weekly := get_weekly_factor n
  let grippe := get_grippe_factor n
  let ev := is_in_event n exceptional_events
  let event_factor := match ev with
    | some e => e.factor
    | none => 1.0
  if ev.any (fun e => e.typ == .epidemie) then
    334 * seasonal * weekly * event_factor
  else
    334 * seasonal * weekly * grippe * event_factor

/-- `generate_daily_admissions`: the realised daily admission count, with
multiplicative Normal(1, 0.10) noise and a hard floor of 100. -/
def generate_daily_admissions (n : ℕ) (z : ℚ) : ℤ :=
  max 100 (pyInt (gdaExpected n * normalV 1 0.10 z))

/-! ## Embedding of `generate_complete_datasets.py`

The 2020–2025 establishment generator (one `DailyRecord` per day) and the
per-patient admission log.  This module never seeds numpy or `random`: its
draws come from whatever global generator state exists at run time, which we
model by passing the raw variate streams as arguments. -/

/-- Bed categories (keys of `config['lits']`, in dict order). -/
inductive LitType where
  | medecine | chirurgie | reanimation | soins_intensifs | usc | obstetrique
deriving DecidableEq, Repr

/-- Staff categories (keys of `config['personnel']`, in dict order). -/
inductive PersCat where
  | medecins | chirurgiens | anesthesistes | gyneco_obstetriciens
  | administratifs | soins | educatifs_sociaux | medico_techniques | techniques_ouvriers
deriving DecidableEq, Repr

/-- Special events of the `EVENEMENTS` table. -/
inductive Evenement where
  | covid_vague1 | covid_vague2 | covid_vague3 | covid_omicron | covid_ba5
  | canicule | grippe | bronchiolite | gastro | normal
deriving DecidableEq, Repr

/-- The Python substring test `'covid' in evenement` on the event name. -/
def Evenement.isCovid : Evenement → Bool
  | .covid_vague1 | .covid_vague2 | .covid_vague3 | .covid_omicron | .covid_ba5 => true
  | _ => false

/-- Seasons returned by `get_saison`. -/
inductive Saison where
  | hiver | printemps | ete | automne
deriving DecidableEq, Repr

/-- Per-bed-category configuration entry. -/
structure LitCfg where
  total : ℤ
  taux_occ_base : ℚ
deriving Repr

/-- The yearly configuration object of `get_config_for_year`. -/
structure Config where
  lits : List (LitType × LitCfg)
  personnel : List (PersCat × ℤ)
  scanners : ℤ
  irm : ℤ
  tep_scan : ℤ
  salles_radio_vasculaire : ℤ
  salles_bloc : ℤ
  admissions_jour_base : ℤ
deriving Repr

/-- `get_config_for_year`: the 2023 baseline scaled by the yearly growth
rates of `CROISSANCE` (compound growth, negative exponents before 2023). -/
def get_config_for_year (year : ℕ) : Config :=
  let years_from_2023 : ℤ := (year : ℤ) - 2023
  let factor_adm : ℚ := (1 + 0.02) ^ years_from_2023
  let factor_med : ℚ := (1 + 0.025) ^ years_from_2023
  let factor_nonmed : ℚ := (1 + 0.015) ^ years_from_2023
  let factor_lits : ℚ := (1 + 0.01) ^ years_from_2023
  { lits :=
      [(.medecine, ⟨pyInt (742 * factor_lits), 0.67⟩),
       (.chirurgie, ⟨pyInt (385 * factor_lits), 0.85⟩),
       (.reanimation, ⟨pyInt (104 * factor_lits), 0.85⟩),
       (.soins_intensifs, ⟨pyInt (70 * factor_lits), 0.82⟩),
       (.usc, ⟨pyInt (49 * factor_lits), 0.78⟩),
       (.obstetrique, ⟨pyInt (48 * factor_lits), 0.68⟩)],
    personnel :=
      [(.medecins, pyInt (479 * factor_med)),
       (.chirurgiens, pyInt (120 * factor_med)),
       (.anesthesistes, pyInt (122 * factor_med)),
       (.gyneco_obstetriciens, pyInt (13 * factor_med)),
       (.administratifs, pyInt (745 * factor_nonmed)),
       (.soins, pyInt (4716 * factor_nonmed)),
       (.educatifs_sociaux, pyInt (87 * factor_nonmed)),
       (.medico_techniques, pyInt (598 * factor_nonmed)),
       (.techniques_ouvriers, pyInt (953 * factor_nonmed))],
    scanners := 7 + max 0 ((year : ℤ) - 2022),
    irm := 6 + max 0 ((year : ℤ) - 2023),
    tep_scan := 3,
    salles_radio_vasculaire := 7,
    salles_bloc := 53 + max 0 (((year : ℤ) - 2021).fdiv 2),
    admissions_jour_base := pyInt (450 * factor_adm) }

/-- `EVENEMENTS`: (start day index, event, duration in days), in insertion
order of the Python dict. -/
def EVENEMENTS : List (ℕ × Evenement × ℕ) :=
  [(natDate 2020 3 15, .covid_vague1, 60),
   (natDate 2020 10 15, .covid_vague2, 90),
   (natDate 2021 3 1, .covid_vague3, 60),
   (natDate 2021 12 15, .covid_omicron, 45),
   (natDate 2022 6 15, .covid_ba5, 30),
   (natDate 2020 8 1, .canicule, 14),
   (natDate 2021 6 15, .canicule, 10),
   (natDate 2022 7 15, .canicule, 21),
   (natDate 2023 8 20, .canicule, 14),
   (natDate 2024 7 1, .canicule, 18),
   (natDate 2025 7 15, .canicule, 12),
   (natDate 2020 1 10, .grippe, 45),
   (natDate 2021 12 1, .grippe, 60),
   (natDate 2022 12 15, .grippe, 45),
   (natDate 2023 12 1, .grippe, 50),
   (natDate 2024 12 10, .grippe, 55),
   (natDate 2025 1 5, .grippe, 40),
   (natDate 2022 10 15, .bronchiolite, 60),
   (natDate 2023 10 20, .bronchiolite, 55),
   (natDate 2024 10 1, .bronchiolite, 50),
   (natDate 2025 10 15, .bronchiolite, 45),
   (natDate 2020 2 1, .gastro, 21),
   (natDate 2021 1 15, .gastro, 18),
   (natDate 2022 1 20, .gastro, 20),
   (natDate 2023 2 1, .gastro, 15),
   (natDate 2024 1 25, .gastro, 22),
   (natDate 2025 2 10, .gastro, 18)]

/-- `get_evenement`: the first table entry whose half-open range
`[start, start+duration)` contains the date, else `normal`. -/
def get_evenement (n : ℕ) : Evenement :=
  match EVENEMENTS.find? (fun e => e.1 ≤ n && n < e.1 + e.2.2) with
  | some e => e.2.1
  | none => .normal

/-- `get_saison`: season from the month. -/
def get_saison (n : ℕ) : Saison :=
  let month := monthOf n
  if month = 12 ∨ month = 1 ∨ month = 2 then .hiver
  else if month = 3 ∨ month = 4 ∨ month = 5 then .printemps
  else if month = 6 ∨ month = 7 ∨ month = 8 then .ete
  else .automne

/-- `get_event_factor`: multiplicative admission factor of an event. -/
def get_event_factor : Evenement → ℚ
  | .covid_vague1 => 1.45
  | .covid_vague2 => 1.30
  | .covid_vague3 => 1.25
  | .covid_omicron => 1.20
  | .covid_ba5 => 1.15
  | .canicule => 1.18
  | .grippe => 1.22
  | .bronchiolite => 1.15
  | .gastro => 1.12
  | .normal => 1.0

/-- The season factor dict of `generate_etablissement`. -/
def saison_factor : Saison → ℚ
  | .hiver => 1.15
  | .printemps => 1.0
  | .ete => 0.85
  | .automne => 1.05

/-- One bed-category row of a `DailyRecord`. -/
structure LitRow where
  typ : LitType
  total : ℤ
  occupes : ℤ
  libres : ℤ
  taux_occ : ℚ
deriving Repr

/-- One staff-category row of a `DailyRecord`. -/
structure PersRow where
  cat : PersCat
  effectif : ℤ
  presents : ℤ
  taux_travail : ℚ
deriving Repr

/-- One row of `etablissement.csv` (one simulated day). -/
structure DailyRecord where
  date : ℕ
  annee : ℕ
  mois : ℕ
  jour_semaine : ℕ
  saison : Saison
  evenement_special : Evenement
  nb_admissions : ℤ
  lits : List LitRow
  personnel : List PersRow
  nb_scanners : ℤ
  nb_irm : ℤ
  nb_tep_scan : ℤ
  nb_salles_radio_vasculaire : ℤ
  nb_salles_bloc : ℤ
  nb_examens_total : ℤ
  nb_examens_scanner : ℤ
  nb_examens_irm : ℤ
  nb_examens_radio : ℤ
  nb_examens_autres : ℤ
  nb_deces : ℤ
  stock_sang_poches : ℤ
  stock_sang_critique : Bool
deriving Repr

/-- A default record (used only as the out-of-range value of `List.getD`). -/
def defaultRecord : DailyRecord :=
  ⟨0, 0, 0, 0, .hiver, .normal, 0, [], [], 0, 0, 0, 0, 0, 0, 0, 0, 0, 0, 0, 0, false⟩

instance : Inhabited DailyRecord := ⟨defaultRecord⟩

/-- The carried state of the establishment loop: the previous day's realised
admissions and the running blood stock. -/
structure EtabState where
  prev_admissions : ℤ
  stock_sang_base : ℚ
deriving Repr

/-- The staff presence fraction of one category on one day: weekend-reduced
base plus uniform noise, multiplied by `min(1.0, 1 + (event_factor − 1)·0.3)`
(the "damped reinforcement" of `generate_etablissement`). -/
def taux_presence_cat (dow : ℕ) (event_factor : ℚ) (u : ℚ) : ℚ :=
  let personnel_event_factor := 1.0 + (event_factor - 1) * 0.3
  let base := if 5 ≤ dow then 0.65 + uniformV 0 0.10 u else 0.88 + uniformV 0 0.08 u
  base * min 1.0 personnel_event_factor

/-- The pre-noise expected admissions of a day:
`admissions_jour_base · event_factor · season_factor · dow_factor`. -/
def admBaseOf (d : ℕ) : ℚ :=
  ((get_config_for_year (yearOf d)).admissions_jour_base : ℚ)
    * get_event_factor (get_evenement d)
    * saison_factor (get_saison d)
    * (if 5 ≤ weekdayOf d then 0.7 else 1.0)

/-- The exponential smoothing `0.7 · adm_base + 0.3 · prev_admissions`. -/
def admSmoothedOf (d : ℕ) (prev : ℤ) : ℚ := 0.7 * admBaseOf d + 0.3 * (prev : ℚ)

/-- The realised daily admissions: smoothed value plus
Normal(0, 0.08·smoothed) noise, truncated to an int, floored at 50. -/
def admissionsOf (zs : Draws) (d : ℕ) (prev : ℤ) : ℤ :=
  max 50 (pyInt (admSmoothedOf d prev
    + normalV 0 (admSmoothedOf d prev * 0.08) (zs (8 * d))))

/-- One bed-category row: the base occupancy rate scaled by event, blended
season and admission-tension factors, noised, clamped to `[0.3, 0.98]`. -/
def litRowOf (zs : Draws) (d : ℕ) (admissions : ℤ) (j : ℕ) (lt : LitType) (lc : LitCfg) :
    LitRow :=
  let event_factor := get_event_factor (get_evenement d)
  let season_factor := saison_factor (get_saison d)
  let tension_admissions :=
    (admissions : ℚ) / ((get_config_for_year (yearOf d)).admissions_jour_base : ℚ)
  let taux0 := lc.taux_occ_base * event_factor * (0.5 + 0.5 * season_factor)
    * (0.8 + 0.2 * tension_admissions)
  let taux := min 0.98 (max 0.3 (taux0 + normalV 0 0.04 (zs (8 * d + 1 + j))))
  let occupes := pyInt ((lc.total : ℚ) * taux)
  LitRow.mk lt lc.total occupes (lc.total - occupes) (pyRound 1 (taux * 100))

/-- One staff-category row: presence fraction per `taux_presence_cat`. -/
def persRowOf (us : Draws) (d : ℕ) (j : ℕ) (cat : PersCat) (base : ℤ) : PersRow :=
  let taux_presence :=
    taux_presence_cat (weekdayOf d) (get_event_factor (get_evenement d)) (us (24 * d + 2 * j))
  let presents := pyInt ((base : ℚ) * taux_presence)
  let taux_travail := pyRound 2 (0.80 + uniformV 0 0.18 (us (24 * d + 2 * j + 1)))
  PersRow.mk cat base presents taux_travail

/-- The exam ratio: `1.5 + U(0, 0.5)`, raised by 10% on event days. -/
def examRatioOf (us : Draws) (d : ℕ) (ev : Evenement) : ℚ :=
  let exam_ratio0 := 1.5 + uniformV 0 0.5 (us (24 * d + 18))
  if ev ≠ .normal then exam_ratio0 * 1.1 else exam_ratio0

/-- Total exam count of the day. -/
def examTotalOf (us : Draws) (d : ℕ) (admissions : ℤ) (ev : Evenement) : ℤ :=
  pyInt ((admissions : ℚ) * examRatioOf us d ev)

/-- Scanner exam count: ratio `0.23 + U(0, 0.04)` of the total. -/
def examScannerOf (us : Draws) (d : ℕ) (total : ℤ) : ℤ :=
  pyInt ((total : ℚ) * (0.23 + uniformV 0 0.04 (us (24 * d + 19))))

/-- IRM exam count: ratio `0.13 + U(0, 0.04)` of the total. -/
def examIrmOf (us : Draws) (d : ℕ) (total : ℤ) : ℤ :=
  pyInt ((total : ℚ) * (0.13 + uniformV 0 0.04 (us (24 * d + 20))))

/-- Radio exam count: ratio `0.38 + U(0, 0.04)` of the total. -/
def examRadioOf (us : Draws) (d : ℕ) (total : ℤ) : ℤ :=
  pyInt ((total : ℚ) * (0.38 + uniformV 0 0.04 (us (24 * d + 21))))

/-- The severe-case fraction of the day's event. -/
def tauxGravesOf (ev : Evenement) : ℚ :=
  let taux_graves0 : ℚ := if ev = .normal then 0.05 else 0.07
  if ev = .covid_vague1 then 0.12
  else if ev.isCovid then 0.08
  else taux_graves0

/-- Severe-case count of the day. -/
def casGravesOf (admissions : ℤ) (ev : Evenement) : ℤ :=
  pyInt ((admissions : ℚ) * tauxGravesOf ev)

/-- The carried blood stock after one day: previous stock minus consumption
(0.3 per severe case) plus `15 + U(0, 10)` replenishment, clamped to
`[300, 700]`. -/
def stockUpdatedOf (us : Draws) (d : ℕ) (cas_graves : ℤ) (stock : ℚ) : ℚ :=
  let consommation := (cas_graves : ℚ) * 0.3
  let renouvellement := 15 + uniformV 0 10 (us (24 * d + 23))
  max 300 (min 700 (stock - consommation + renouvellement))

/-- One day of `generate_etablissement`.  Each day consumes exactly 8
normal variates (`zs`) and 24 uniform variates (`us`), in program order:
normals — admissions noise, the 6 bed-category noises, the blood-stock
noise; uniforms — 2 per staff category (presence, work rate), the exam
ratio, the 3 modality ratios, the severe-case mortality rate and the blood
replenishment.  Day `d` uses the blocks `zs (8d+·)` and `us (24d+·)`. -/
def etabStep (zs us : Draws) (d : ℕ) (st : EtabState) : DailyRecord × EtabState :=
  let year := yearOf d
  let config := get_config_for_year year
  let evenement := get_evenement d
  let saison := get_saison d
  let dow := weekdayOf d
  let admissions := admissionsOf zs d st.prev_admissions
  let lits := config.lits.enum.map (fun p => litRowOf zs d admissions p.1 p.2.1 p.2.2)
  let personnel := config.personnel.enum.map (fun p => persRowOf us d p.1 p.2.1 p.2.2)
  let nb_examens_total := examTotalOf us d admissions evenement
  let nb_examens_scanner := examScannerOf us d nb_examens_total
  let nb_examens_irm := examIrmOf us d nb_examens_total
  let nb_examens_radio := examRadioOf us d nb_examens_total
  let nb_examens_autres := nb_examens_total - nb_examens_scanner - nb_examens_irm - nb_examens_radio
  let cas_graves := casGravesOf admissions evenement
  let taux_mortalite_graves := 0.025 + uniformV 0 0.02 (us (24 * d + 22))
  let deces := pyInt ((cas_graves : ℚ) * taux_mortalite_graves)
  let stock_sang_base := stockUpdatedOf us d cas_graves st.stock_sang_base
  let stock_sang_poches := pyInt (stock_sang_base + normalV 0 20 (zs (8 * d + 7)))
  ({ date := d,
     annee := year,
     mois := monthOf d,
     jour_semaine := dow,
     saison := saison,
     evenement_special := evenement,
     nb_admissions := admissions,
     lits := lits,
     personnel := personnel,
     nb_scanners := config.scanners,
     nb_irm := config.irm,
     nb_tep_scan := config.tep_scan,
     nb_salles_radio_vasculaire := config.salles_radio_vasculaire,
     nb_salles_bloc := config.salles_bloc,
     nb_examens_total := nb_examens_total,
     nb_examens_scanner := nb_examens_scanner,
     nb_examens_irm := nb_examens_irm,
     nb_examens_radio := nb_examens_radio,
     nb_examens_autres := nb_examens_autres,
     nb_deces := max 0 deces,
     stock_sang_poches := stock_sang_poches,
     stock_sang_critique := stock_sang_poches < 400 },
   ⟨admissions, stock_sang_base⟩)

/-- The day loop of `generate_etablissement`, one record per day. -/
def etabLoop (zs us : Draws) : ℕ → ℕ → EtabState → List DailyRecord
  | 0, _, _ => []
  | fuel + 1, d, st =>
    let r := etabStep zs us d st
    r.1 :: etabLoop zs us fuel (d + 1) r.2

/-- Number of days from 2020-01-01 to 2025-12-31 inclusive. -/
def numDays : ℕ := 2192

/-- `generate_etablissement`: the full 2020-01-01 … 2025-12-31 run, starting
from `prev_admissions = 450` and `stock_sang_base = 500`. -/
def generate_etablissement (zs us : Draws) : List DailyRecord :=
  etabLoop zs us numDays 0 ⟨450, 500⟩

/-! ### Patient-log generator (`generate_admissions_complet`)

Distributional primitives are realised from one raw variate per numpy call:
a weighted categorical by a cumulative-weight scan (§9 of the design notes),
`randint`/uniform choice by scaling, and the exponential by the monotone
map `u ↦ u / (1 − u)` of a unit variate onto `[0, ∞)`. -/

/-- Weighted categorical draw: cumulative-weight scan of one variate. -/
def pickW [Inhabited α] : List (α × ℚ) → ℚ → α
  | [], _ => default
  | (a, w) :: rest, u => if u < w then a else pickW rest (u - w)

/-- Uniform choice from a list (numpy `choice` without probabilities). -/
def pickUniform [Inhabited α] (l : List α) (u : ℚ) : α :=
  l.getD (pyInt (u * l.length)).toNat default

/-- `np.random.randint(a, b)`: integer draw in `[a, b)`. -/
def randintV (a b : ℤ) (u : ℚ) : ℤ := a + pyInt (u * ((b : ℚ) - (a : ℚ)))

/-- `np.random.exponential(beta)` realised from a unit variate. -/
def expV (beta u : ℚ) : ℚ := beta * (u / (1 - u))

/-- Services of `generate_admissions_complet` (keys of its `SERVICES`). -/
inductive ServiceC where
  | medecine | chirurgie | urgences | reanimation
  | cardiologie | neurologie | pediatrie | maladies_infectieuses
deriving DecidableEq, Repr

instance : Inhabited ServiceC := ⟨.medecine⟩

/-- Patient sex. -/
inductive Sexe where
  | M | F
deriving DecidableEq, Repr

instance : Inhabited Sexe := ⟨.M⟩

/-- Admission types of the patient log. -/
inductive TypeAdmission where
  | urgence | programme | transfert
deriving DecidableEq, Repr

instance : Inhabited TypeAdmission := ⟨.urgence⟩

/-- Arrival modes of the patient log. -/
inductive ModeArrivee where
  | urgences_pied | urgences_ambulance | samu | transfert | consultation | programme
deriving DecidableEq, Repr

instance : Inhabited ModeArrivee := ⟨.programme⟩

/-- Exam modalities drawn for a patient. -/
inductive ExamType where
  | radio | scanner | irm | echo | biologie | ecg
deriving DecidableEq, Repr

instance : Inhabited LitType := ⟨.medecine⟩

/-- The base `SERVICES` weight table, in dict order. -/
def SERVICES_C : List (ServiceC × ℚ) :=
  [(.medecine, 0.25), (.chirurgie, 0.20), (.urgences, 0.18), (.reanimation, 0.05),
   (.cardiologie, 0.10), (.neurologie, 0.08), (.pediatrie, 0.06),
   (.maladies_infectieuses, 0.08)]

/-- Event-driven service reweighting of `generate_admissions_complet`. -/
def services_weights (ev : Evenement) : List (ServiceC × ℚ) :=
  SERVICES_C.map (fun p =>
    if ev.isCovid then
      if p.1 = .maladies_infectieuses then (p.1, p.2 * 2)
      else if p.1 = .reanimation then (p.1, p.2 * 1.5)
      else p
    else if ev = .grippe then
      if p.1 = .maladies_infectieuses then (p.1, p.2 * 1.5) else p
    else if ev = .canicule then
      if p.1 = .cardiologie then (p.1, p.2 * 1.3) else p
    else p)

/-- Normalised service probabilities for a day's event context. -/
def services_probs (ev : Evenement) : List (ServiceC × ℚ) :=
  let ws := services_weights ev
  let total := (ws.map (fun p => p.2)).sum
  ws.map (fun p => (p.1, p.2 / total))

/-- `SERVICE_TO_LIT`: candidate bed categories per service (`none` is the
Python `None` entry, filtered out before the draw). -/
def SERVICE_TO_LIT : ServiceC → List (Option LitType)
  | .urgences => [some .medecine, some .chirurgie, none]
  | .reanimation => [some .reanimation, some .soins_intensifs]
  | .cardiologie => [some .medecine, some .soins_intensifs]
  | .neurologie => [some .medecine, some .soins_intensifs]
  | .pediatrie => [some .medecine]
  | .maladies_infectieuses => [some .medecine]
  | .medecine => [some .medecine]
  | .chirurgie => [some .chirurgie]

/-- The `MOTIFS` admission-reason list. -/
def MOTIFS : List String :=
  ["Douleur thoracique", "Dyspnée", "Traumatisme", "Infection",
   "Chirurgie programmée", "Examen diagnostique", "Suivi chronique",
   "AVC", "Malaise", "Douleur abdominale", "Fracture", "Grippe",
   "COVID-19", "Pneumonie", "Insuffisance cardiaque", "Diabète décompensé"]

/-- Age-bracket weights of the patient generator. -/
def AGE_WEIGHTS : List (ℤ × ℚ) :=
  [(5, 0.05), (15, 0.05), (25, 0.10), (35, 0.12), (45, 0.15),
   (55, 0.18), (65, 0.18), (75, 0.12), (85, 0.05)]

/-- All exam modalities, in the order of the Python literal. -/
def ALL_EXAMS : List ExamType := [.radio, .scanner, .irm, .echo, .biologie, .ecg]

/-- A without-replacement draw of `k` distinct exam modalities, realised
from one variate as a rotation of the modality list. -/
def examSubset (k : ℕ) (u : ℚ) : List ExamType :=
  (ALL_EXAMS.rotateLeft ((pyInt (u * 6)).toNat % 6)).take k

/-- One row of `admissions_complet.csv` (one admitted patient). -/
structure PatientRecord where
  id_patient : ℕ
  date_admission : ℕ
  heure_admission : ℤ × ℤ
  date_sortie : ℕ
  heure_sortie : ℤ × ℤ
  sexe : Sexe
  age : ℤ
  service : ServiceC
  type_admission : TypeAdmission
  motif_admission : String
  gravite : ℤ
  duree_sejour : ℤ
  cout_sejour : ℤ
  mode_arrivee : ModeArrivee
  a_pris_lit : Bool
  type_lit : Option LitType
  nb_jours_lit : ℤ
  saison : Saison
  evenement_special : Evenement
  a_eu_examen : Bool
  nb_examens : ℤ
  types_examens : List ExamType
deriving Repr

/-- One patient of `generate_admissions_complet`: draws are consumed from
`rs` starting at position `k` in program order; the returned counter is the
next free position.  `pid` is the already-incremented patient id. -/
def genPatient (rs : Draws) (d : ℕ) (ev : Evenement) (sais : Saison)
    (probs : List (ServiceC × ℚ)) (pid : ℕ) (k : ℕ) : PatientRecord × ℕ :=
  let ageChoice := pickW AGE_WEIGHTS (rs k)
  let age0 := ageChoice + randintV (-4) 5 (rs (k + 1))
  let age := max 0 (min 99 age0)
  let sexe := pickW [(Sexe.M, 0.48), (Sexe.F, 0.52)] (rs (k + 2))
  let service := pickW probs (rs (k + 3))
  let k4 := k + 4
  let ta : TypeAdmission × ℕ :=
    if service = .urgences then (.urgence, k4)
    else if service = .chirurgie then
      if 0.3 < rs k4 then (.programme, k4 + 1)
      else if 0.7 < rs (k4 + 1) then (.transfert, k4 + 2)
      else (pickW [(TypeAdmission.urgence, 0.6), (TypeAdmission.programme, 0.4)] (rs (k4 + 2)),
            k4 + 3)
    else
      if 0.7 < rs k4 then (.transfert, k4 + 1)
      else (pickW [(TypeAdmission.urgence, 0.6), (TypeAdmission.programme, 0.4)] (rs (k4 + 1)),
            k4 + 2)
  let type_admission := ta.1
  let k5 := ta.2
  let base_gravite : ℚ := 2 + (if 70 < age then 1 else 0) + (if ev ≠ .normal then 0.5 else 0)
  let gravite := min 5 (max 1 (pyInt (base_gravite + normalV 0 0.8 (rs k5))))
  let k6 := k5 + 1
  let duree :=
    if service = .urgences ∧ type_admission = .urgence then
      max 0 (pyInt (expV 0.5 (rs k6)))
    else
      max 0 (pyInt (expV ((gravite : ℚ) * 1.5 + (age : ℚ) * 0.03) (rs k6)))
  let k7 := k6 + 1
  let date_sortie := d + duree.toNat
  let cout_base0 : ℚ := 500 + (duree : ℚ) * 800
  let cout_base : ℚ :=
    if service = .reanimation then cout_base0 * 3
    else if service = .chirurgie then cout_base0 * 1.8
    else cout_base0
  let cout := pyInt (cout_base * (0.8 + uniformV 0 0.4 (rs k7)))
  let k8 := k7 + 1
  let mo : ModeArrivee × ℕ :=
    if type_admission = .urgence then
      (pickW [(ModeArrivee.urgences_pied, 0.50), (ModeArrivee.urgences_ambulance, 0.35),
              (ModeArrivee.samu, 0.15)] (rs k8), k8 + 1)
    else if type_admission = .transfert then (.transfert, k8)
    else (pickW [(ModeArrivee.consultation, 0.25), (ModeArrivee.programme, 0.75)] (rs k8), k8 + 1)
  let mode := mo.1
  let k9 := mo.2
  let lit_options := (SERVICE_TO_LIT service).filterMap id
  let li : Bool × Option LitType × ℕ :=
    if 0 < duree then (true, some (pickUniform lit_options (rs k9)), k9 + 1)
    else (false, none, k9)
  let k10 := li.2.2
  let mf : String × ℕ :=
    if ev.isCovid then
      if 0.5 < rs k10 then ("COVID-19", k10 + 1)
      else (pickUniform MOTIFS (rs (k10 + 1)), k10 + 2)
    else if ev = .grippe then
      if 0.6 < rs k10 then (pickUniform ["Grippe", "Pneumonie"] (rs (k10 + 1)), k10 + 2)
      else (pickUniform MOTIFS (rs (k10 + 1)), k10 + 2)
    else (pickUniform MOTIFS (rs k10), k10 + 1)
  let motif := mf.1
  let k11 := mf.2
  let nb_exam :=
    if 4 ≤ gravite then randintV 2 6 (rs k11)
    else if 3 ≤ gravite then randintV 1 4 (rs k11)
    else if 2 ≤ gravite then randintV 0 3 (rs k11)
    else randintV 0 2 (rs k11)
  let k12 := k11 + 1
  let te : List ExamType × ℕ :=
    if 0 < nb_exam then (examSubset (min nb_exam 4).toNat (rs k12), k12 + 1)
    else ([], k12)
  let k13 := te.2
  let heure_admission := (randintV 0 24 (rs k13), randintV 0 60 (rs (k13 + 1)))
  let heure_sortie := (randintV 0 24 (rs (k13 + 2)), randintV 0 60 (rs (k13 + 3)))
  ({ id_patient := pid,
     date_admission := d,
     heure_admission := heure_admission,
     date_sortie := date_sortie,
     heure_sortie := heure_sortie,
     sexe := sexe,
     age := age,
     service := service,
     type_admission := type_admission,
     motif_admission := motif,
     gravite := gravite,
     duree_sejour := duree,
     cout_sejour := cout,
     mode_arrivee := mode,
     a_pris_lit := decide (0 < duree),
     type_lit := li.2.1,
     nb_jours_lit := if 0 < duree then duree else 0,
     saison := sais,
     evenement_special := ev,
     a_eu_examen := decide (0 < nb_exam),
     nb_examens := nb_exam,
     types_examens := te.1 },
   k13 + 4)

/-- The inner `for _ in range(nb_adm)` loop of one day: `n` patients, each
incrementing the patient-id counter before being generated. -/
def patientBlock (rs : Draws) (d : ℕ) (ev : Evenement) (sais : Saison)
    (probs : List (ServiceC × ℚ)) : ℕ → ℕ → ℕ → List PatientRecord × ℕ × ℕ
  | 0, pid, k => ([], pid, k)
  | n + 1, pid, k =>
    let pr := genPatient rs d ev sais probs (pid + 1) k
    let rest := patientBlock rs d ev sais probs n (pid + 1) pr.2
    (pr.1 :: rest.1, rest.2.1, rest.2.2)

/-- The day loop of `generate_admissions_complet`: days with no entry in the
per-day admission map are skipped (`continue`). -/
def gacLoop (rs : Draws) (apj : ℕ → Option ℤ) : ℕ → ℕ → ℕ → ℕ → List PatientRecord
  | 0, _, _, _ => []
  | fuel + 1, d, pid, k =>
    match apj d with
    | none => gacLoop rs apj fuel (d + 1) pid k
    | some nb =>
      let ev := get_evenement d
      let sais := get_saison d
      let probs := services_probs ev
      let blk := patientBlock rs d ev sais probs nb.toNat pid k
      blk.1 ++ gacLoop rs apj fuel (d + 1) blk.2.1 blk.2.2

/-- `generate_admissions_complet`: one patient row per admission, driven by
the per-day admission counts `apj` read back from `etablissement.csv`, over
the same 2020–2025 date range, starting from patient id 100000. -/
def generate_admissions_complet (apj : ℕ → Option ℤ) (rs : Draws) : List PatientRecord :=
  gacLoop rs apj numDays 0 100000 0

/-- The `dict(zip(df['date'], df['nb_admissions']))` lookup built from the
establishment table. -/
def apjOf (recs : List DailyRecord) : ℕ → Option ℤ :=
  fun d => (recs.find? (fun r => r.date == d)).map (fun r => r.nb_admissions)

/-! ## Embedding of `generate_resources_calibrated.py`

The alternate per-(date, service) occupancy generator calibrated on the
static capacity table. -/

/-- Services of `CAPACITE_REELLE_PITIE`, in dict order. -/
inductive ServiceR where
  | medecine | chirurgie | urgences | reanimation
  | soins_intensifs | usc | ssr | obstetrique
deriving DecidableEq, Repr

/-- `VARIATION_HEBDO`: weekday multiplier (Monday = 0). -/
def VARIATION_HEBDO : ℕ → ℚ
  | 0 => 1.08
  | 1 => 1.02
  | 2 => 1.00
  | 3 => 0.98
  | 4 => 0.95
  | 5 => 0.90
  | 6 => 0.92
  | _ => 1.0

/-- `VARIATION_MENSUELLE`: month multiplier. -/
def VARIATION_MENSUELLE : ℕ → ℚ
  | 1 => 1.12
  | 2 => 1.08
  | 3 => 1.02
  | 4 => 0.98
  | 5 => 0.95
  | 6 => 0.90
  | 7 => 0.85
  | 8 => 0.82
  | 9 => 0.95
  | 10 => 1.00
  | 11 => 1.05
  | 12 => 1.10
  | _ => 1.0

/-- `get_occupation_rate`: base rate modulated by weekday and month tables
plus Normal(0, var/2) noise, clamped to a service-class interval and
rounded to 3 decimals. -/
def get_occupation_rate (service : ServiceR) (n : ℕ) (base_rate : ℚ) (var : ℚ) (z : ℚ) : ℚ :=
  let hebdo_factor := VARIATION_HEBDO (weekdayOf n)
  let mensuel_factor := VARIATION_MENSUELLE (monthOf n)
  let random_var := normalV 0 (var / 2) z
  let taux := base_rate * hebdo_factor * mensuel_factor + random_var
  let taux' :=
    if service = .urgences then max 0.80 (min 1.10 taux)
    else if service = .reanimation then max 0.60 (min 0.98 taux)
    else max 0.50 (min 0.98 taux)
  pyRound 3 taux'

/-! ## Spec-side definitions

These restate what the specification says, in its own words, to be compared
with the source-derived definitions above. -/

/-- Spec-side definition: `active_event(date)` — the first calendar entry
whose inclusive date range contains the query date. -/
def activeEventSpec (n : ℕ) : Option Event :=
  exceptional_events.find? (fun e => e.startD ≤ n && n ≤ e.endD)

/-- Spec-side definition: `expected = base_rate · seasonal_factor ·
weekly_factor · branch`, where branch is the event multiplier alone for an
epidemic-category event, the flu factor times the event multiplier
otherwise, and the event multiplier is 1.0 with no active event. -/
def expectedSpec (n : ℕ) : ℚ :=
  334 * get_seasonal_factor n * get_weekly_factor n *
    (match activeEventSpec n with
     | some e => if e.typ = .epidemie then e.factor else get_grippe_factor n * e.factor
     | none => get_grippe_factor n * 1.0)

/-- Spec-side definition: the flu tempering map
`c ↦ 1 + (c−1)·0.06` for `c > 1`, `c ↦ 1 − (1−c)·0.03` otherwise. -/
def fluTemperSpec (c : ℚ) : ℚ :=
  if 1 < c then 1 + (c - 1) * 0.06 else 1 - (1 - c) * 0.03

/-- Spec-side definition: the category-specific occupancy clamp intervals
of the calibrated generator (lower bounds). -/
def clampLo : ServiceR → ℚ
  | .urgences => 0.80
  | .reanimation => 0.60
  | _ => 0.50

/-- Spec-side definition: the category-specific occupancy clamp intervals
of the calibrated generator (upper bounds). -/
def clampHi : ServiceR → ℚ
  | .urgences => 1.10
  | .reanimation => 0.98
  | _ => 0.98

/-! ## Helper lemmas -/

theorem grippe_lookup_bounded (k : ℤ) (h1 : 1 ≤ k) (h2 : k ≤ 52) :
    (GRIPPE_WEEKLY_COEFFICIENTS.lookup k).isSome = true := by
  have hm : ∀ m : ℕ, m < 52 →
      (GRIPPE_WEEKLY_COEFFICIENTS.lookup ((m : ℤ) + 1)).isSome = true := by decide
  have hk : k = ((k - 1).toNat : ℤ) + 1 := by omega
  rw [hk]
  exact hm (k - 1).toNat (by omega)

/-! ## Claim theorems -/

/-- C5.  For every date, the flu factor equals the spec's tempering map
applied to the raw Sentinelles weekly coefficient (ISO week capped at 52,
missing key defaulting to 1.0), and every raw coefficient of the table lies
in the advertised range 0.079–3.682. -/
theorem claim_C5_flu_tempering :
    (∀ n : ℕ, get_grippe_factor n = fluTemperSpec (rawGrippeCoeff n)) ∧
      (GRIPPE_WEEKLY_COEFFICIENTS.all
        (fun p => decide (0.079 ≤ p.2 ∧ p.2 ≤ 3.682))) = true := by
  constructor
  · intro n
    rfl
  · simp only [GRIPPE_WEEKLY_COEFFICIENTS, List.all_cons, List.all_nil,
      Bool.and_eq_true, decide_eq_true_eq]
    norm_num

/-- C10.  The flu-factor lookup is total: the ISO week of any day index lies
in `[1, 53]`, its capped value lies in `[1, 52]`, and the weekly-coefficient
table contains every capped key, so the 1.0 fallback and the tempering map
are defined on every calendar date. -/
theorem claim_C10_flu_lookup_total (n : ℕ) :
    1 ≤ isoWeek n ∧ isoWeek n ≤ 53 ∧ 1 ≤ min (isoWeek n) 52 ∧
      min (isoWeek n) 52 ≤ 52 ∧
      (GRIPPE_WEEKLY_COEFFICIENTS.lookup (min (isoWeek n) 52)).isSome = true := by
  have h1 := isoWeek_ge_one n
  have h2 := isoWeek_le n
  have hmin1 : 1 ≤ min (isoWeek n) 52 := le_min h1 (by norm_num)
  have hmin2 : min (isoWeek n) 52 ≤ 52 := min_le_right _ _
  exact ⟨h1, h2, hmin1, hmin2, grippe_lookup_bounded _ hmin1 hmin2⟩

/-- C10 witness: the bounds and the lookup instantiated at day 0
(2020-01-01, ISO week 1). -/
theorem claim_C10_witness :
    1 ≤ isoWeek 0 ∧ isoWeek 0 ≤ 53 ∧ 1 ≤ min (isoWeek 0) 52 ∧
      min (isoWeek 0) 52 ≤ 52 ∧
      (GRIPPE_WEEKLY_COEFFICIENTS.lookup (min (isoWeek 0) 52)).isSome = true :=
  claim_C10_flu_lookup_total 0

/-- C3.  For every day, the expected admission count computed by
`generate_daily_admissions` equals the spec's formula: base rate times
seasonal and weekly factors times a branch that is the event multiplier
alone for an epidemic-category event, the flu factor times the event
multiplier otherwise (multiplier 1.0 with no active event). -/
theorem claim_C3_expected_admissions (n : ℕ) : gdaExpected n = expectedSpec n := by
  unfold gdaExpected expectedSpec
  have hsame : is_in_event n exceptional_events = activeEventSpec n := rfl
  rw [hsame]
  cases hev : activeEventSpec n with
  | none =>
    simp only [Option.any_none]
    norm_num
  | some e =>
    simp only [Option.any_some]
    by_cases ht : e.typ = .epidemie
    · simp only [ht, beq_self_eq_true, if_true]
    · have hb : (e.typ == EventType.epidemie) = false := by
        simp [ht]
      simp only [hb, if_neg, Bool.false_eq_true, if_false, ht]
      ring

/-- C6.  In `generate_etablissement` the staff presence fraction is
multiplied by `min(1.0, 1 + (event_factor − 1)·0.3)`; since every event
factor of `get_event_factor` is at least 1, this multiplier is exactly 1,
so the presence fraction on a day with any active event equals the
presence fraction of an event-free day with the same draws — the damped
amplification claimed by the spec never takes effect. -/
theorem claim_C6_staff_amplification_inert :
    ∀ (dow : ℕ) (u : ℚ) (e : Evenement),
      taux_presence_cat dow (get_event_factor e) u
        = taux_presence_cat dow (get_event_factor .normal) u := by
  have h : ∀ e : Evenement, min (1.0 : ℚ) (1.0 + (get_event_factor e - 1) * 0.3) = 1.0 := by
    intro e
    cases e <;> norm_num [get_event_factor, min_def]
  intro dow u e
  simp only [taux_presence_cat]
  rw [h e, h .normal]

theorem occClamp_bounds (lo hi t : ℚ) (a b : ℤ)
    (hl : lo = (a : ℚ) / (10 : ℚ) ^ 3) (hh : hi = (b : ℚ) / (10 : ℚ) ^ 3)
    (hlohi : lo ≤ hi) :
    lo ≤ pyRound 3 (max lo (min hi t)) ∧ pyRound 3 (max lo (min hi t)) ≤ hi := by
  have h1 : lo ≤ max lo (min hi t) := le_max_left _ _
  have h2 : max lo (min hi t) ≤ hi := max_le hlohi (min_le_left _ _)
  exact pyRound_mem_Icc 3 _ lo hi a b hl hh h1 h2

theorem round1_clamped_bounds (x : ℚ) :
    30 ≤ pyRound 1 (min 0.98 (max 0.3 x) * 100) ∧
      pyRound 1 (min 0.98 (max 0.3 x) * 100) ≤ 98 := by
  have h1 : (0.3 : ℚ) ≤ min 0.98 (max 0.3 x) := le_min (by norm_num) (le_max_left _ _)
  have h2 : min 0.98 (max 0.3 x) ≤ 0.98 := min_le_left _ _
  exact pyRound_mem_Icc 1 _ 30 98 300 980 (by norm_num) (by norm_num)
    (by linarith) (by linarith)

theorem litRowOf_taux_bounds (zs : Draws) (d : ℕ) (adm : ℤ) (j : ℕ) (lt : LitType)
    (lc : LitCfg) :
    30 ≤ (litRowOf zs d adm j lt lc).taux_occ ∧ (litRowOf zs d adm j lt lc).taux_occ ≤ 98 :=
  round1_clamped_bounds _

theorem etabStep_lits_bounds (zs us : Draws) (d : ℕ) (st : EtabState) :
    ((etabStep zs us d st).1.lits.all
      (fun lr => decide (30 ≤ lr.taux_occ ∧ lr.taux_occ ≤ 98))) = true := by
  have hproj : (etabStep zs us d st).1.lits
      = (get_config_for_year (yearOf d)).lits.enum.map
          (fun p => litRowOf zs d (admissionsOf zs d st.prev_admissions) p.1 p.2.1 p.2.2) := rfl
  rw [hproj, List.all_eq_true]
  intro x hx
  rw [List.mem_map] at hx
  obtain ⟨p, hp, rfl⟩ := hx
  rw [decide_eq_true_eq]
  exact litRowOf_taux_bounds _ _ _ _ _ _

/-- Propagation of a per-record property through the establishment loop,
with `defaultRecord` as the out-of-range value. -/
theorem etabLoop_getD_prop (zs us : Draws) (P : DailyRecord → Prop)
    (hstep : ∀ d st, P (etabStep zs us d st).1) (hdef : P defaultRecord) :
    ∀ (fuel d : ℕ) (st : EtabState) (i : ℕ),
      P ((etabLoop zs us fuel d st).getD i defaultRecord) := by
  intro fuel
  induction fuel with
  | zero =>
    intro d st i
    simpa [etabLoop] using hdef
  | succ f ih =>
    intro d st i
    cases i with
    | zero => simpa [etabLoop] using hstep d st
    | succ j => simpa [etabLoop] using ih (d + 1) (etabStep zs us d st).2 j

theorem roundHE_intCast (n : ℤ) : roundHE (n : ℚ) = n := by
  unfold roundHE
  dsimp only
  rw [Int.floor_intCast]
  simp

theorem get_occupation_rate_urgences (n : ℕ) (br var z : ℚ) :
    get_occupation_rate .urgences n br var z
      = pyRound 3 (max 0.80 (min 1.10
          (br * VARIATION_HEBDO (weekdayOf n) * VARIATION_MENSUELLE (monthOf n)
            + normalV 0 (var / 2) z))) := by
  simp only [get_occupation_rate]
  simp

theorem get_occupation_rate_reanimation (n : ℕ) (br var z : ℚ) :
    get_occupation_rate .reanimation n br var z
      = pyRound 3 (max 0.60 (min 0.98
          (br * VARIATION_HEBDO (weekdayOf n) * VARIATION_MENSUELLE (monthOf n)
            + normalV 0 (var / 2) z))) := by
  simp only [get_occupation_rate]
  simp

theorem get_occupation_rate_other (s : ServiceR) (hs1 : s ≠ .urgences)
    (hs2 : s ≠ .reanimation) (n : ℕ) (br var z : ℚ) :
    get_occupation_rate s n br var z
      = pyRound 3 (max 0.50 (min 0.98
          (br * VARIATION_HEBDO (weekdayOf n) * VARIATION_MENSUELLE (monthOf n)
            + normalV 0 (var / 2) z))) := by
  simp only [get_occupation_rate]
  rw [if_neg hs1, if_neg hs2]

/-- C8.  Occupancy clamps: in the calibrated generator every computed rate
lies in its category-specific interval (Urgences `[0.80, 1.10]`, Réanimation
`[0.60, 0.98]`, other services `[0.50, 0.98]`), the upper bound exceeds 1
exactly for the emergency category (and a rate above 1 is attained there);
in the establishment generator every recorded bed-occupancy percentage lies
in the common clamp interval `[30, 98]`, so never above 100%. -/
theorem claim_C8_occupancy_clamps :
    (∀ (s : ServiceR) (n : ℕ) (br var z : ℚ),
        clampLo s ≤ get_occupation_rate s n br var z ∧
          get_occupation_rate s n br var z ≤ clampHi s) ∧
    (∀ s : ServiceR, 1 < clampHi s ↔ s = .urgences) ∧
    (1 < get_occupation_rate .urgences 0 2 0 0) ∧
    (∀ (zs us : Draws) (i : ℕ),
        (((generate_etablissement zs us).getD i defaultRecord).lits.all
          (fun lr => decide (30 ≤ lr.taux_occ ∧ lr.taux_occ ≤ 98))) = true) := by
  refine ⟨?_, ?_, ?_, ?_⟩
  · intro s n br var z
    cases s with
    | urgences =>
      rw [get_occupation_rate_urgences]
      exact occClamp_bounds 0.80 1.10 _ 800 1100 (by norm_num) (by norm_num) (by norm_num)
    | reanimation =>
      rw [get_occupation_rate_reanimation]
      exact occClamp_bounds 0.60 0.98 _ 600 980 (by norm_num) (by norm_num) (by norm_num)
    | medecine =>
      rw [get_occupation_rate_other _ (by decide) (by decide)]
      exact occClamp_bounds 0.50 0.98 _ 500 980 (by norm_num) (by norm_num) (by norm_num)
    | chirurgie =>
      rw [get_occupation_rate_other _ (by decide) (by decide)]
      exact occClamp_bounds 0.50 0.98 _ 500 980 (by norm_num) (by norm_num) (by norm_num)
    | soins_intensifs =>
      rw [get_occupation_rate_other _ (by decide) (by decide)]
      exact occClamp_bounds 0.50 0.98 _ 500 980 (by norm_num) (by norm_num) (by norm_num)
    | usc =>
      rw [get_occupation_rate_other _ (by decide) (by decide)]
      exact occClamp_bounds 0.50 0.98 _ 500 980 (by norm_num) (by norm_num) (by norm_num)
    | ssr =>
      rw [get_occupation_rate_other _ (by decide) (by decide)]
      exact occClamp_bounds 0.50 0.98 _ 500 980 (by norm_num) (by norm_num) (by norm_num)
    | obstetrique =>
      rw [get_occupation_rate_other _ (by decide) (by decide)]
      exact occClamp_bounds 0.50 0.98 _ 500 980 (by norm_num) (by norm_num) (by norm_num)
  · intro s
    cases s <;> norm_num [clampHi] <;> try decide
  · have hproj : get_occupation_rate .urgences 0 2 0 0
        = pyRound 3 (max 0.80 (min 1.10
            (2 * VARIATION_HEBDO (weekdayOf 0) * VARIATION_MENSUELLE (monthOf 0)
              + normalV 0 (0 / 2) 0))) := rfl
    rw [hproj, show weekdayOf 0 = 2 from by decide, show monthOf 0 = 1 from by decide]
    have hval : (2 * VARIATION_HEBDO 2 * VARIATION_MENSUELLE 1 + normalV 0 (0 / 2) 0 : ℚ)
        = 2.24 := by
      norm_num [VARIATION_HEBDO, VARIATION_MENSUELLE, normalV]
    rw [hval]
    have hclamp : (max 0.80 (min 1.10 2.24) : ℚ) = 1.10 := by
      norm_num [min_def, max_def]
    rw [hclamp]
    have hround : pyRound 3 (1.10 : ℚ) = 1.10 := by
      unfold pyRound
      rw [show ((1.10 : ℚ) * (10 : ℚ) ^ 3) = ((1100 : ℤ) : ℚ) from by norm_num,
        roundHE_intCast]
      norm_num
    rw [hround]
    norm_num
  · intro zs us i
    exact etabLoop_getD_prop zs us
      (fun r => (r.lits.all (fun lr => decide (30 ≤ lr.taux_occ ∧ lr.taux_occ ≤ 98))) = true)
      (fun d st => etabStep_lits_bounds zs us d st) rfl numDays 0 ⟨450, 500⟩ i

theorem admissionsOf_ge_floor (zs : Draws) (d : ℕ) (prev : ℤ) :
    50 ≤ admissionsOf zs d prev :=
  le_max_left _ _

theorem examRatioOf_nonneg (us : Draws) (d : ℕ) (ev : Evenement)
    (hu : 0 ≤ us (24 * d + 18)) : 0 ≤ examRatioOf us d ev := by
  unfold examRatioOf uniformV
  dsimp only
  split <;> nlinarith

theorem examAutres_nonneg (us : Draws) (d : ℕ) (A : ℤ) (ev : Evenement)
    (hA : 0 ≤ A) (hus : ∀ k, 0 ≤ us k ∧ us k ≤ 1) :
    0 ≤ examTotalOf us d A ev - examScannerOf us d (examTotalOf us d A ev)
      - examIrmOf us d (examTotalOf us d A ev)
      - examRadioOf us d (examTotalOf us d A ev) := by
  have hAQ : (0 : ℚ) ≤ (A : ℚ) := by exact_mod_cast hA
  have hT : 0 ≤ examTotalOf us d A ev :=
    pyInt_nonneg _ (mul_nonneg hAQ (examRatioOf_nonneg us d ev (hus (24 * d + 18)).1))
  have hTQ : (0 : ℚ) ≤ ((examTotalOf us d A ev : ℤ) : ℚ) := by exact_mod_cast hT
  obtain ⟨h19a, h19b⟩ := hus (24 * d + 19)
  obtain ⟨h20a, h20b⟩ := hus (24 * d + 20)
  obtain ⟨h21a, h21b⟩ := hus (24 * d + 21)
  have hS : ((examScannerOf us d (examTotalOf us d A ev) : ℤ) : ℚ)
      ≤ ((examTotalOf us d A ev : ℤ) : ℚ) * 0.27 := by
    calc ((examScannerOf us d (examTotalOf us d A ev) : ℤ) : ℚ)
        ≤ ((examTotalOf us d A ev : ℤ) : ℚ) * (0.23 + uniformV 0 0.04 (us (24 * d + 19))) :=
          pyInt_le _ (mul_nonneg hTQ (by unfold uniformV; linarith))
      _ ≤ ((examTotalOf us d A ev : ℤ) : ℚ) * 0.27 := by
          apply mul_le_mul_of_nonneg_left _ hTQ
          unfold uniformV
          linarith
  have hI : ((examIrmOf us d (examTotalOf us d A ev) : ℤ) : ℚ)
      ≤ ((examTotalOf us d A ev : ℤ) : ℚ) * 0.17 := by
    calc ((examIrmOf us d (examTotalOf us d A ev) : ℤ) : ℚ)
        ≤ ((examTotalOf us d A ev : ℤ) : ℚ) * (0.13 + uniformV 0 0.04 (us (24 * d + 20))) :=
          pyInt_le _ (mul_nonneg hTQ (by unfold uniformV; linarith))
      _ ≤ ((examTotalOf us d A ev : ℤ) : ℚ) * 0.17 := by
          apply mul_le_mul_of_nonneg_left _ hTQ
          unfold uniformV
          linarith
  have hR : ((examRadioOf us d (examTotalOf us d A ev) : ℤ) : ℚ)
      ≤ ((examTotalOf us d A ev : ℤ) : ℚ) * 0.42 := by
    calc ((examRadioOf us d (examTotalOf us d A ev) : ℤ) : ℚ)
        ≤ ((examTotalOf us d A ev : ℤ) : ℚ) * (0.38 + uniformV 0 0.04 (us (24 * d + 21))) :=
          pyInt_le _ (mul_nonneg hTQ (by unfold uniformV; linarith))
      _ ≤ ((examTotalOf us d A ev : ℤ) : ℚ) * 0.42 := by
          apply mul_le_mul_of_nonneg_left _ hTQ
          unfold uniformV
          linarith
  have hsum : ((examScannerOf us d (examTotalOf us d A ev) : ℤ) : ℚ)
      + ((examIrmOf us d (examTotalOf us d A ev) : ℤ) : ℚ)
      + ((examRadioOf us d (examTotalOf us d A ev) : ℤ) : ℚ)
      ≤ ((examTotalOf us d A ev : ℤ) : ℚ) := by linarith
  have : (0 : ℚ) ≤ ((examTotalOf us d A ev : ℤ) : ℚ)
      - ((examScannerOf us d (examTotalOf us d A ev) : ℤ) : ℚ)
      - ((examIrmOf us d (examTotalOf us d A ev) : ℤ) : ℚ)
      - ((examRadioOf us d (examTotalOf us d A ev) : ℤ) : ℚ) := by linarith
  exact_mod_cast this

theorem etabStep_autres_nonneg (zs us : Draws) (hus : ∀ k, 0 ≤ us k ∧ us k ≤ 1)
    (d : ℕ) (st : EtabState) : 0 ≤ (etabStep zs us d st).1.nb_examens_autres := by
  have hproj : (etabStep zs us d st).1.nb_examens_autres
      = examTotalOf us d (admissionsOf zs d st.prev_admissions) (get_evenement d)
        - examScannerOf us d
            (examTotalOf us d (admissionsOf zs d st.prev_admissions) (get_evenement d))
        - examIrmOf us d
            (examTotalOf us d (admissionsOf zs d st.prev_admissions) (get_evenement d))
        - examRadioOf us d
            (examTotalOf us d (admissionsOf zs d st.prev_admissions) (get_evenement d)) := rfl
  rw [hproj]
  exact examAutres_nonneg us d _ _
    (le_trans (by norm_num) (admissionsOf_ge_floor zs d st.prev_admissions)) hus

/-- C9.  For every generated day, the residual "other" exam-modality count
(total minus scanner, IRM and radio counts) is non-negative: the modality
ratios are bounded by 0.27, 0.17 and 0.42 (summing to 0.86 < 1) and every
count is truncated toward zero from a non-negative product. -/
theorem claim_C9_exam_residual_nonneg (zs us : Draws)
    (hus : ∀ k, 0 ≤ us k ∧ us k ≤ 1) (i : ℕ) :
    0 ≤ ((generate_etablissement zs us).getD i defaultRecord).nb_examens_autres :=
  etabLoop_getD_prop zs us (fun r => 0 ≤ r.nb_examens_autres)
    (fun d st => etabStep_autres_nonneg zs us hus d st) (le_refl 0) numDays 0 ⟨450, 500⟩ i

/-- C9 witness: the residual exam count of the first generated day under
all-zero draw streams is non-negative. -/
theorem claim_C9_witness :
    0 ≤ (((generate_etablissement (fun _ => 0) (fun _ => 0)).getD 0
      defaultRecord).nb_examens_autres) :=
  claim_C9_exam_residual_nonneg (fun _ => 0) (fun _ => 0)
    (fun _ => ⟨le_refl 0, by norm_num⟩) 0

theorem pyInt_eq_val (q : ℚ) (n : ℤ) (h0 : 0 ≤ q) (h1 : (n : ℚ) ≤ q) (h2 : q < n + 1) :
    pyInt q = n := by
  rw [pyInt_eq_floor q h0]
  exact Int.floor_eq_iff.mpr ⟨h1, h2⟩

theorem etabLoop_length (zs us : Draws) :
    ∀ (fuel d : ℕ) (st : EtabState), (etabLoop zs us fuel d st).length = fuel := by
  intro fuel
  induction fuel with
  | zero => intro d st; simp [etabLoop]
  | succ f ih => intro d st; simp [etabLoop, ih]

theorem etabLoop_getD_zero (zs us : Draws) (f d : ℕ) (st : EtabState) :
    (etabLoop zs us (f + 1) d st).getD 0 defaultRecord = (etabStep zs us d st).1 := by
  simp [etabLoop]

/-- C2 (amended).  The carried blood-stock state is clamped to `[300, 700]`
by every daily update, and the recorded `stock_sang_poches` equals the
clamped carried stock plus a Normal(0, 20) perturbation truncated to an
integer (so the recorded value itself can leave the interval). -/
theorem claim_C2_carried_stock_bounds (zs us : Draws) (d : ℕ) (st : EtabState) :
    300 ≤ (etabStep zs us d st).2.stock_sang_base ∧
      (etabStep zs us d st).2.stock_sang_base ≤ 700 ∧
      (etabStep zs us d st).1.stock_sang_poches
        = pyInt ((etabStep zs us d st).2.stock_sang_base + normalV 0 20 (zs (8 * d + 7))) := by
  have hst : (etabStep zs us d st).2.stock_sang_base
      = stockUpdatedOf us d (casGravesOf (admissionsOf zs d st.prev_admissions)
          (get_evenement d)) st.stock_sang_base := rfl
  have hpo : (etabStep zs us d st).1.stock_sang_poches
      = pyInt (stockUpdatedOf us d (casGravesOf (admissionsOf zs d st.prev_admissions)
          (get_evenement d)) st.stock_sang_base + normalV 0 20 (zs (8 * d + 7))) := rfl
  rw [hst, hpo]
  refine ⟨?_, ?_, rfl⟩
  · unfold stockUpdatedOf
    dsimp only
    exact le_max_left _ _
  · unfold stockUpdatedOf
    dsimp only
    exact max_le (by norm_num) (min_le_left _ _)

/-- Normal-variate stream of the C2 counterexample: the day-0 blood-stock
noise draw is −15 standard deviations, every other draw is 0. -/
def zsC2 : Draws := fun k => if k = 7 then -15 else 0

/-- Uniform-variate stream of the C2 counterexample: all draws 0. -/
def usC2 : Draws := fun _ => 0

theorem config2020_adm_base : (get_config_for_year 2020).admissions_jour_base = 424 := by
  have h1 : (get_config_for_year 2020).admissions_jour_base
      = pyInt (450 * (1 + 0.02) ^ (((2020 : ℕ) : ℤ) - 2023)) := rfl
  rw [h1, show (((2020 : ℕ) : ℤ) - 2023) = (-3 : ℤ) from by norm_num]
  exact pyInt_eq_val _ 424 (by norm_num) (by norm_num) (by norm_num)

theorem admBase_day0 : admBaseOf 0 = 487.6 := by
  unfold admBaseOf
  rw [show yearOf 0 = 2020 from by decide,
    show get_evenement 0 = Evenement.normal from by decide,
    show get_saison 0 = Saison.hiver from by decide,
    show weekdayOf 0 = 2 from by decide, config2020_adm_base]
  norm_num [get_event_factor, saison_factor]

theorem admSmoothed_day0 : admSmoothedOf 0 450 = 476.32 := by
  unfold admSmoothedOf
  rw [admBase_day0]
  norm_num

theorem admissions_day0_zero_noise (zs : Draws) (h : zs 0 = 0) :
    admissionsOf zs 0 450 = 476 := by
  unfold admissionsOf
  rw [admSmoothed_day0, h,
    show normalV 0 (476.32 * 0.08) 0 = 0 from by unfold normalV; ring]
  rw [show (476.32 + 0 : ℚ) = 476.32 from by norm_num]
  rw [pyInt_eq_val 476.32 476 (by norm_num) (by norm_num) (by norm_num)]
  norm_num [max_def]

theorem admissions_day0_noise10 (zs : Draws) (h : zs 0 = 10) :
    admissionsOf zs 0 450 = 857 := by
  unfold admissionsOf
  rw [admSmoothed_day0, h,
    show normalV 0 (476.32 * 0.08) 10 = 381.056 from by unfold normalV; norm_num]
  rw [show (476.32 + 381.056 : ℚ) = 857.376 from by norm_num]
  rw [pyInt_eq_val 857.376 857 (by norm_num) (by norm_num) (by norm_num)]
  norm_num [max_def]

/-- C2 counterexample: with the day-0 blood-stock noise draw at −15σ, the
first `DailyRecord` of a run stores `stock_sang_poches = 208`, outside the
claimed interval `[300, 700]` (the clamp is applied to the carried state
before the recording noise, not to the recorded value). -/
theorem claim_C2_counterexample :
    ((generate_etablissement zsC2 usC2).getD 0 defaultRecord).stock_sang_poches < 300 ∧
      0 < (generate_etablissement zsC2 usC2).length := by
  constructor
  · have h0 : (generate_etablissement zsC2 usC2).getD 0 defaultRecord
        = (etabStep zsC2 usC2 0 ⟨450, 500⟩).1 :=
      etabLoop_getD_zero zsC2 usC2 2191 0 ⟨450, 500⟩
    have hpo : (etabStep zsC2 usC2 0 ⟨450, 500⟩).1.stock_sang_poches
        = pyInt (stockUpdatedOf usC2 0 (casGravesOf (admissionsOf zsC2 0 450)
            (get_evenement 0)) 500 + normalV 0 20 (zsC2 7)) := rfl
    rw [h0, hpo, show get_evenement 0 = Evenement.normal from by decide,
      admissions_day0_zero_noise zsC2 rfl]
    have hcas : casGravesOf 476 .normal = 23 := by
      unfold casGravesOf
      rw [show tauxGravesOf .normal = 0.05 from by simp [tauxGravesOf, Evenement.isCovid]]
      exact pyInt_eq_val _ 23 (by norm_num) (by norm_num) (by norm_num)
    rw [hcas]
    have hstock : stockUpdatedOf usC2 0 23 500 = 508.1 := by
      unfold stockUpdatedOf
      dsimp only
      rw [show usC2 (24 * 0 + 23) = 0 from rfl]
      rw [show ((23 : ℤ) : ℚ) * 0.3 = 6.9 from by norm_num,
        show (15 + uniformV 0 10 0 : ℚ) = 15 from by norm_num [uniformV]]
      norm_num [min_def, max_def]
    rw [hstock, show zsC2 7 = -15 from rfl,
      show normalV 0 20 (-15 : ℚ) = -300 from by norm_num [normalV],
      show (508.1 + -300 : ℚ) = 208.1 from by norm_num]
    rw [pyInt_eq_val 208.1 208 (by norm_num) (by norm_num) (by norm_num)]
    norm_num
  · rw [generate_etablissement, etabLoop_length]
    norm_num [numDays]

/-- An all-zero ambient normal stream (one possible global RNG state of an
unseeded run). -/
def zsA : Draws := fun _ => 0

/-- An ambient normal stream whose first draw is 10 (another possible
global RNG state of an unseeded run). -/
def zsB : Draws := fun k => if k = 0 then 10 else 0

/-- An all-zero ambient uniform stream. -/
def usA : Draws := fun _ => 0

/-- C1.  `generate_complete_datasets.py` never seeds numpy or `random`, so
its draws come from the ambient global generator state, which varies from
run to run; the day-level table is not a constant function of that state:
two ambient streams differing in a single draw already produce different
`DailyRecord` tables (day 0 records 476 vs 857 admissions).  Hence two
complete runs are not guaranteed to produce identical tables. -/
theorem claim_C1_unseeded_run_divergence :
    generate_etablissement zsA usA ≠ generate_etablissement zsB usA := by
  intro h
  have hproj := congrArg (fun l => (l.getD 0 defaultRecord).nb_admissions) h
  dsimp only at hproj
  have h0A : (generate_etablissement zsA usA).getD 0 defaultRecord
      = (etabStep zsA usA 0 ⟨450, 500⟩).1 :=
    etabLoop_getD_zero zsA usA 2191 0 ⟨450, 500⟩
  have h0B : (generate_etablissement zsB usA).getD 0 defaultRecord
      = (etabStep zsB usA 0 ⟨450, 500⟩).1 :=
    etabLoop_getD_zero zsB usA 2191 0 ⟨450, 500⟩
  have hpA : (etabStep zsA usA 0 ⟨450, 500⟩).1.nb_admissions = admissionsOf zsA 0 450 := rfl
  have hpB : (etabStep zsB usA 0 ⟨450, 500⟩).1.nb_admissions = admissionsOf zsB 0 450 := rfl
  rw [h0A, h0B, hpA, hpB, admissions_day0_zero_noise zsA rfl,
    admissions_day0_noise10 zsB rfl] at hproj
  exact absurd hproj (by decide)

theorem etabLoop_succ (zs us : Draws) (f d : ℕ) (st : EtabState) :
    etabLoop zs us (f + 1) d st
      = (etabStep zs us d st).1 :: etabLoop zs us f (d + 1) (etabStep zs us d st).2 := rfl

theorem admissionsOf_noise_form (zs : Draws) (d : ℕ) (prev : ℤ) :
    admissionsOf zs d prev
      = max 50 (pyInt (admSmoothedOf d prev * (1 + 0.08 * zs (8 * d)))) := by
  unfold admissionsOf normalV
  congr 2
  ring

theorem etabLoop_consecutive (zs us : Draws) :
    ∀ (i fuel d : ℕ) (st : EtabState), i + 1 < fuel →
      ((etabLoop zs us fuel d st).getD (i + 1) defaultRecord).nb_admissions
        = admissionsOf zs (d + i + 1)
            (((etabLoop zs us fuel d st).getD i defaultRecord).nb_admissions) := by
  intro i
  induction i with
  | zero =>
    intro fuel d st h
    obtain ⟨f, rfl⟩ : ∃ f, fuel = f + 2 := ⟨fuel - 2, by omega⟩
    rw [show f + 2 = (f + 1) + 1 from rfl, etabLoop_succ, etabLoop_succ]
    simp only [List.getD_cons_zero, List.getD_cons_succ, Nat.add_zero]
    have hpB : (etabStep zs us (d + 1) (etabStep zs us d st).2).1.nb_admissions
        = admissionsOf zs (d + 1) (etabStep zs us d st).2.prev_admissions := rfl
    have hst : (etabStep zs us d st).2.prev_admissions
        = (etabStep zs us d st).1.nb_admissions := rfl
    rw [hpB, hst]
  | succ j ih =>
    intro fuel d st h
    obtain ⟨f, rfl⟩ : ∃ f, fuel = f + 1 := ⟨fuel - 1, by omega⟩
    rw [etabLoop_succ]
    simp only [List.getD_cons_succ]
    have hrec := ih f (d + 1) (etabStep zs us d st).2 (by omega)
    rw [show d + 1 + j + 1 = d + (j + 1) + 1 from by omega] at hrec
    exact hrec

theorem etabLoop_getD_prop_lt (zs us : Draws) (P : DailyRecord → Prop)
    (hstep : ∀ d st, P (etabStep zs us d st).1) :
    ∀ (fuel d : ℕ) (st : EtabState) (i : ℕ), i < fuel →
      P ((etabLoop zs us fuel d st).getD i defaultRecord) := by
  intro fuel
  induction fuel with
  | zero => intro d st i h; omega
  | succ f ih =>
    intro d st i h
    cases i with
    | zero =>
      rw [etabLoop_succ]
      simpa using hstep d st
    | succ j =>
      rw [etabLoop_succ]
      simpa using ih (d + 1) (etabStep zs us d st).2 j (by omega)

/-- C4.  Realised admissions of the establishment generator: every day's
count is at least the hard floor 50; for every day `i ≥ 1` the count equals
`max(50, int(smoothed · noise))` with `smoothed = 0.7·adm_base(i) +
0.3·(day i−1's realised count)` and `noise = 1 + 0.08·z_i` — a first-order
recurrence on the previous day's realised value.  The companion generator
`generate_daily_admissions` likewise realises `max(100, int(expected ·
(1 + 0.10·z)))`. -/
theorem claim_C4_admissions_recurrence (zs us : Draws) (i : ℕ) (h : i < numDays) :
    50 ≤ ((generate_etablissement zs us).getD i defaultRecord).nb_admissions ∧
    (0 < i →
      ((generate_etablissement zs us).getD i defaultRecord).nb_admissions
        = max 50 (pyInt ((0.7 * admBaseOf i
            + 0.3 * ((((generate_etablissement zs us).getD (i - 1)
                defaultRecord).nb_admissions : ℤ) : ℚ))
            * (1 + 0.08 * zs (8 * i))))) ∧
    (∀ (d : ℕ) (z : ℚ), generate_daily_admissions d z
        = max 100 (pyInt (gdaExpected d * (1 + 0.10 * z)))) := by
  refine ⟨?_, ?_, fun d z => rfl⟩
  · exact etabLoop_getD_prop_lt zs us (fun r => 50 ≤ r.nb_admissions)
      (fun d st => admissionsOf_ge_floor zs d st.prev_admissions) numDays 0 ⟨450, 500⟩ i h
  · intro hi
    obtain ⟨j, rfl⟩ : ∃ j, i = j + 1 := ⟨i - 1, by omega⟩
    have hrec := etabLoop_consecutive zs us j numDays 0 ⟨450, 500⟩ (by omega)
    simp only [Nat.zero_add] at hrec
    rw [show j + 1 - 1 = j from by omega]
    unfold generate_etablissement
    rw [hrec, admissionsOf_noise_form]
    rfl

/-- C4 witness: the floor and the recurrence instantiated at day 1 of a run
with all-zero streams, both hypotheses discharged concretely. -/
theorem claim_C4_witness :
    50 ≤ ((generate_etablissement zsA usA).getD 1 defaultRecord).nb_admissions ∧
    ((generate_etablissement zsA usA).getD 1 defaultRecord).nb_admissions
      = max 50 (pyInt ((0.7 * admBaseOf 1
          + 0.3 * ((((generate_etablissement zsA usA).getD (1 - 1)
              defaultRecord).nb_admissions : ℤ) : ℚ))
          * (1 + 0.08 * zsA (8 * 1)))) :=
  ⟨(claim_C4_admissions_recurrence zsA usA 1 (by norm_num [numDays])).1,
   (claim_C4_admissions_recurrence zsA usA 1 (by norm_num [numDays])).2.1 (by norm_num)⟩

theorem etabLoop_map_date (zs us : Draws) :
    ∀ (fuel d : ℕ) (st : EtabState),
      (etabLoop zs us fuel d st).map (fun r => r.date) = List.range' d fuel := by
  intro fuel
  induction fuel with
  | zero => intro d st; simp [etabLoop, List.range']
  | succ f ih =>
    intro d st
    rw [etabLoop_succ, List.range'_succ, List.map_cons, ih]
    have hd : (etabStep zs us d st).1.date = d := rfl
    rw [hd]

theorem genPatient_date (rs : Draws) (d : ℕ) (ev : Evenement) (sais : Saison)
    (probs : List (ServiceC × ℚ)) (pid k : ℕ) :
    (genPatient rs d ev sais probs pid k).1.date_admission = d := rfl

theorem patientBlock_length (rs : Draws) (d : ℕ) (ev : Evenement) (sais : Saison)
    (probs : List (ServiceC × ℚ)) :
    ∀ (n pid k : ℕ), (patientBlock rs d ev sais probs n pid k).1.length = n := by
  intro n
  induction n with
  | zero => intro pid k; rfl
  | succ m ih => intro pid k; simp [patientBlock, ih]

theorem patientBlock_dates (rs : Draws) (d : ℕ) (ev : Evenement) (sais : Saison)
    (probs : List (ServiceC × ℚ)) :
    ∀ (n pid k : ℕ) (p : PatientRecord),
      p ∈ (patientBlock rs d ev sais probs n pid k).1 → p.date_admission = d := by
  intro n
  induction n with
  | zero => intro pid k p hp; simp [patientBlock] at hp
  | succ m ih =>
    intro pid k p hp
    simp only [patientBlock, List.mem_cons] at hp
    rcases hp with hp | hp
    · rw [hp]
      exact genPatient_date rs d ev sais probs (pid + 1) k
    · exact ih (pid + 1) _ p hp

theorem patientBlock_filter_self (rs : Draws) (d : ℕ) (ev : Evenement) (sais : Saison)
    (probs : List (ServiceC × ℚ)) (n pid k : ℕ) :
    ((patientBlock rs d ev sais probs n pid k).1.filter
      (fun p => p.date_admission == d)).length = n := by
  rw [List.filter_eq_self.mpr, patientBlock_length]
  intro p hp
  rw [patientBlock_dates rs d ev sais probs n pid k p hp]
  simp

theorem patientBlock_filter_ne (rs : Draws) (d : ℕ) (ev : Evenement) (sais : Saison)
    (probs : List (ServiceC × ℚ)) (n pid k d0 : ℕ) (hne : d ≠ d0) :
    (patientBlock rs d ev sais probs n pid k).1.filter
      (fun p => p.date_admission == d0) = [] := by
  rw [List.filter_eq_nil_iff]
  intro p hp
  rw [patientBlock_dates rs d ev sais probs n pid k p hp]
  simp [hne]

theorem gacLoop_succ_none (rs : Draws) (apj : ℕ → Option ℤ) (f d pid k : ℕ)
    (h : apj d = none) :
    gacLoop rs apj (f + 1) d pid k = gacLoop rs apj f (d + 1) pid k := by
  simp [gacLoop, h]

theorem gacLoop_succ_some (rs : Draws) (apj : ℕ → Option ℤ) (f d pid k : ℕ) (nb : ℤ)
    (h : apj d = some nb) :
    gacLoop rs apj (f + 1) d pid k
      = (patientBlock rs d (get_evenement d) (get_saison d)
          (services_probs (get_evenement d)) nb.toNat pid k).1
        ++ gacLoop rs apj f (d + 1)
            (patientBlock rs d (get_evenement d) (get_saison d)
              (services_probs (get_evenement d)) nb.toNat pid k).2.1
            (patientBlock rs d (get_evenement d) (get_saison d)
              (services_probs (get_evenement d)) nb.toNat pid k).2.2 := by
  simp [gacLoop, h]

theorem gacLoop_filter_count (rs : Draws) (apj : ℕ → Option ℤ) (d0 : ℕ) :
    ∀ (fuel d pid k : ℕ),
      ((gacLoop rs apj fuel d pid k).filter (fun p => p.date_admission == d0)).length
        = if d ≤ d0 ∧ d0 < d + fuel
          then (match apj d0 with | some nb => nb.toNat | none => 0)
          else 0 := by
  intro fuel
  induction fuel with
  | zero =>
    intro d pid k
    rw [if_neg (by omega)]
    simp [gacLoop]
  | succ f ih =>
    intro d pid k
    by_cases hd : d0 = d
    · subst hd
      rw [if_pos (by omega)]
      cases hap : apj d0 with
      | none =>
        rw [gacLoop_succ_none rs apj f d0 pid k hap, ih, if_neg (by omega)]
      | some nb =>
        rw [gacLoop_succ_some rs apj f d0 pid k nb hap, List.filter_append,
          List.length_append, patientBlock_filter_self, ih, if_neg (by omega)]
        simp
    · cases hap : apj d with
      | none =>
        rw [gacLoop_succ_none rs apj f d pid k hap, ih]
        by_cases hc : d + 1 ≤ d0 ∧ d0 < d + 1 + f
        · rw [if_pos hc, if_pos (by omega)]
        · rw [if_neg hc, if_neg (by omega)]
      | some nb =>
        rw [gacLoop_succ_some rs apj f d pid k nb hap, List.filter_append,
          List.length_append,
          patientBlock_filter_ne rs d (get_evenement d) (get_saison d)
            (services_probs (get_evenement d)) nb.toNat pid k d0 (Ne.symm hd), ih]
        simp only [List.length_nil, Nat.zero_add]
        by_cases hc : d + 1 ≤ d0 ∧ d0 < d + 1 + f
        · rw [if_pos hc, if_pos (by omega)]
        · rw [if_neg hc, if_neg (by omega)]

theorem gacLoop_dates_lt (rs : Draws) (apj : ℕ → Option ℤ) :
    ∀ (fuel d pid k : ℕ) (p : PatientRecord),
      p ∈ gacLoop rs apj fuel d pid k → p.date_admission < d + fuel := by
  intro fuel
  induction fuel with
  | zero => intro d pid k p hp; simp [gacLoop] at hp
  | succ f ih =>
    intro d pid k p hp
    cases hap : apj d with
    | none =>
      rw [gacLoop_succ_none rs apj f d pid k hap] at hp
      have := ih (d + 1) pid k p hp
      omega
    | some nb =>
      rw [gacLoop_succ_some rs apj f d pid k nb hap, List.mem_append] at hp
      rcases hp with hp | hp
      · rw [patientBlock_dates rs d (get_evenement d) (get_saison d)
          (services_probs (get_evenement d)) nb.toNat pid k p hp]
        omega
      · have := ih (d + 1) _ _ p hp
        omega

theorem find_date_of_map_range (recs : List DailyRecord) :
    ∀ (s n : ℕ), recs.map (fun r => r.date) = List.range' s n →
      ∀ d0 : ℕ, recs.find? (fun r => r.date == d0)
        = if s ≤ d0 ∧ d0 < s + n then some (recs.getD (d0 - s) defaultRecord) else none := by
  induction recs with
  | nil =>
    intro s n h d0
    have hn : n = 0 := by
      by_contra hne
      obtain ⟨m, rfl⟩ : ∃ m, n = m + 1 := ⟨n - 1, by omega⟩
      rw [List.range'_succ] at h
      exact absurd h (by simp)
    subst hn
    rw [if_neg (by omega)]
    rfl
  | cons r rest ih =>
    intro s n h d0
    cases n with
    | zero =>
      rw [show List.range' s 0 = [] from rfl] at h
      exact absurd h (by simp)
    | succ m =>
      rw [List.range'_succ] at h
      rw [List.map_cons] at h
      injection h with h1 h2
      by_cases hd : d0 = s
      · subst hd
        rw [List.find?_cons_of_pos _ (by simp [h1]), if_pos (by omega)]
        rw [show d0 - d0 = 0 from by omega, List.getD_cons_zero]
      · rw [List.find?_cons_of_neg _ (by simp [h1, Ne.symm hd]), ih (s + 1) m h2 d0]
        by_cases hc : s + 1 ≤ d0 ∧ d0 < s + 1 + m
        · rw [if_pos hc, if_pos (by omega)]
          rw [show d0 - s = (d0 - (s + 1)) + 1 from by omega, List.getD_cons_succ]
        · rw [if_neg hc, if_neg (by omega)]

theorem apjOf_of_range (recs : List DailyRecord)
    (h : recs.map (fun r => r.date) = List.range numDays) (d0 : ℕ) :
    apjOf recs d0
      = if d0 < numDays then some ((recs.getD d0 defaultRecord).nb_admissions)
        else none := by
  unfold apjOf
  rw [List.range_eq_range'] at h
  rw [find_date_of_map_range recs 0 numDays h d0]
  by_cases hc : d0 < numDays
  · rw [if_pos (by omega), if_pos hc]
    rw [show d0 - 0 = d0 from by omega]
    rfl
  · rw [if_neg (by omega), if_neg hc]
    rfl

/-- C7.  Coverage: a run of `generate_etablissement` emits exactly one
`DailyRecord` per date of the closed 2020-01-01 … 2025-12-31 range, in
ascending date order (its dates are exactly `0, 1, …, 2191`); feeding its
per-day admission counts to `generate_admissions_complet` yields, for each
such date, exactly `nb_admissions` `PatientRecord`s whose admission date
is that date, and no patient record carries a date outside the range. -/
theorem claim_C7_coverage (zs us rs : Draws) :
    (generate_etablissement zs us).map (fun r => r.date) = List.range numDays ∧
    (∀ d0 : ℕ,
      ((generate_admissions_complet (apjOf (generate_etablissement zs us)) rs).filter
        (fun p => p.date_admission == d0)).length
        = if d0 < numDays
          then (((generate_etablissement zs us).getD d0 defaultRecord).nb_admissions).toNat
          else 0) ∧
    ((generate_admissions_complet (apjOf (generate_etablissement zs us)) rs).all
      (fun p => decide (p.date_admission < numDays)) = true) := by
  have hmap : (generate_etablissement zs us).map (fun r => r.date) = List.range numDays := by
    rw [List.range_eq_range']
    exact etabLoop_map_date zs us numDays 0 ⟨450, 500⟩
  refine ⟨hmap, ?_, ?_⟩
  · intro d0
    unfold generate_admissions_complet
    rw [gacLoop_filter_count rs (apjOf (generate_etablissement zs us)) d0 numDays 0 100000 0]
    rw [apjOf_of_range _ hmap d0]
    by_cases hc : d0 < numDays
    · rw [if_pos hc, if_pos (by omega), if_pos hc]
    · rw [if_neg hc, if_neg (by omega), if_neg hc]
  · rw [List.all_eq_true]
    intro p hp
    rw [decide_eq_true_eq]
    have hlt := gacLoop_dates_lt rs (apjOf (generate_etablissement zs us))
      numDays 0 100000 0 p hp
    omega

end PitieSalpetriere
